import Mathlib

/-!
Shallow embedding of `src/ros2_ws/src/nodo_central_ros/nodo_central_ros/nodo_central.py`
(the biorreactor central node): JSON-like values, raw records, the per-device
buffer store (a `defaultdict(list)` keyed by the Python value of
`id_dispositivo`), the median pipeline (`calcular_mediana`, `redondear`),
the ingest callback (`listener_callback`) and the flush routine
(`publicar_datos`), together with spec-level definitions used to compare
the code with the natural-language specification.

Numeric values are modelled as rationals (exact arithmetic); Python's
`round(x, 2)` is modelled as round-half-to-even at two decimal places.
-/

/-- A JSON-like scalar value as it appears in a parsed payload field.
Objects/arrays nested inside a field are irrelevant to the node's logic
(they are neither numeric nor used as ids in the claims) and are modelled
by `jother`. -/
inductive JVal where
  | jnum (q : ℚ)
  | jbool (b : Bool)
  | jstr (s : String)
  | jnull
  | jother
deriving DecidableEq, Repr

/-- The Python equality/hash class of a value: numbers and booleans
collapse to their numeric value (`True == 1 == 1.0`), strings stand
alone, `None` equals only itself; two distinct non-scalars are modelled
as never equal (as keys they are unhashable anyway). -/
def keyRep : JVal → Option (ℚ ⊕ String ⊕ Unit)
  | JVal.jnum q => some (Sum.inl q)
  | JVal.jbool b => some (Sum.inl (if b then 1 else 0))
  | JVal.jstr s => some (Sum.inr (Sum.inl s))
  | JVal.jnull => some (Sum.inr (Sum.inr ()))
  | JVal.jother => none

/-- Python `==` on the values we model, used for dictionary-key
matching. -/
def pyEq (a b : JVal) : Bool :=
  match keyRep a, keyRep b with
  | some x, some y => decide (x = y)
  | _, _ => false

/-- Python truthiness of a value (`if id_disp:`).  For non-scalars
(`jother`) truthiness depends on the container's contents; it is modelled
as `true`, which is harmless because a truthy non-scalar id fails hashing
and a falsy one fails this guard — either way the buffer store is left
unchanged (see `listener_callback`). -/
def truthy : JVal → Bool
  | JVal.jnum q => q != 0
  | JVal.jbool b => b
  | JVal.jstr s => s != ""
  | JVal.jnull => false
  | JVal.jother => true

/-- Whether a value can be used as a Python dictionary key: parsed JSON
arrays and objects (`jother`) are unhashable and raise `TypeError` when
used to index the `defaultdict`. -/
def hashable : JVal → Bool
  | JVal.jother => false
  | _ => true

/-- Python `isinstance(v, (int, float))`.  `bool` is a subtype of `int`,
so booleans pass the test. -/
def isNumericPy : JVal → Bool
  | JVal.jnum _ => true
  | JVal.jbool _ => true
  | _ => false

/-- The numeric value of a scalar that passed `isNumericPy` (booleans count
as 0/1); junk value 0 elsewhere, never used unguarded. -/
def toNum : JVal → ℚ
  | JVal.jnum q => q
  | JVal.jbool b => if b then 1 else 0
  | _ => 0

/-- The five numeric sensor fields of a record. -/
inductive Campo where
  | temperatura
  | ph
  | turbidez
  | oxigeno
  | luz
deriving DecidableEq, Repr

/-- A parsed JSON object payload, restricted to the keys the node reads.
`none` means the key is absent from the dictionary (a key present with
JSON `null` is `some JVal.jnull`; for `dict.get` both behave alike except
for the default). -/
structure RawRecord where
  id_dispositivo : Option JVal := none
  dominio : Option JVal := none
  temperatura : Option JVal := none
  ph : Option JVal := none
  turbidez : Option JVal := none
  oxigeno : Option JVal := none
  luz : Option JVal := none
deriving DecidableEq, Repr

/-- `d[campo]` / `campo in d` for the five numeric fields. -/
def getField (d : RawRecord) : Campo → Option JVal
  | Campo.temperatura => d.temperatura
  | Campo.ph => d.ph
  | Campo.turbidez => d.turbidez
  | Campo.oxigeno => d.oxigeno
  | Campo.luz => d.luz

/-- Python's ascending sort on the collected numeric values. -/
def sortQ (xs : List ℚ) : List ℚ := List.insertionSort (· ≤ ·) xs

/-- `statistics.median(data)`: sort, middle element when the length is odd,
mean of the two middle elements when even; fails (`StatisticsError`) on an
empty list, modelled as `none`. -/
def statisticsMedian (xs : List ℚ) : Option ℚ :=
  let data := sortQ xs
  let n := data.length
  if n = 0 then none
  else if n % 2 = 1 then some (data.getD (n / 2) 0)
  else some ((data.getD (n / 2 - 1) 0 + data.getD (n / 2) 0) / 2)

/-- The list comprehension in `calcular_mediana`:
`[d[campo] for d in buffer if campo in d and isinstance(d[campo], (int, float))]`,
carried to its numeric value. -/
def valoresCampo (buffer : List RawRecord) (campo : Campo) : List ℚ :=
  buffer.filterMap (fun d =>
    match getField d campo with
    | some v => if isNumericPy v then some (toNum v) else none
    | none => none)

/-- `calcular_mediana(buffer, campo)`: collect the present numeric values,
return `None` if there are none, else `statistics.median(sorted(valores))`.
(The `try/except` can only fire on the empty-input `StatisticsError`, which
the emptiness guard already excludes.) -/
def calcular_mediana (buffer : List RawRecord) (campo : Campo) : Option ℚ :=
  let valores := valoresCampo buffer campo
  if valores.isEmpty then none
  else statisticsMedian (sortQ valores)

/-- Round-half-to-even to an integer (Python's `round` tie-breaking). -/
def roundHalfEven (q : ℚ) : ℤ :=
  let f := ⌊q⌋
  let r := q - f
  if r < 1 / 2 then f
  else if r > 1 / 2 then f + 1
  else if f % 2 = 0 then f else f + 1

/-- `round(valor, 2)` on an exact rational. -/
def round2 (q : ℚ) : ℚ := (roundHalfEven (q * 100) : ℚ) / 100

/-- `redondear(valor)`: round to 2 decimals when the value is numeric,
else `None` (in the node the argument is a median or `None`). -/
def redondear (valor : Option ℚ) : Option ℚ := valor.map round2

/-- The sentinel domain `"desconocido"` used when the last record has no
domain tag. -/
def sentinelDominio : JVal := JVal.jstr "desconocido"

/-- The `datos_filtrados` dictionary built for one device in
`publicar_datos`. -/
structure DatosFiltrados where
  id_dispositivo : JVal
  dominio : JVal
  temperatura : Option ℚ
  ph : Option ℚ
  turbidez : Option ℚ
  oxigeno : Option ℚ
  luz : Option ℚ
deriving DecidableEq, Repr

/-- Field selector on a summary record. -/
def summaryField (s : DatosFiltrados) : Campo → Option ℚ
  | Campo.temperatura => s.temperatura
  | Campo.ph => s.ph
  | Campo.turbidez => s.turbidez
  | Campo.oxigeno => s.oxigeno
  | Campo.luz => s.luz

/-- The reducer: the construction of `datos_filtrados` inside
`publicar_datos`.  `buffer[-1]` raises `IndexError` on an empty buffer,
modelled as `none`; on a non-empty buffer the summary is
`buffer[-1].get("dominio", "desconocido")` for the domain and
`redondear(calcular_mediana(buffer, campo))` for each numeric field. -/
def reduceBuffer (id_disp : JVal) (buffer : List RawRecord) : Option DatosFiltrados :=
  match buffer.getLast? with
  | none => none
  | some ultimo =>
    some { id_dispositivo := id_disp
           dominio := ultimo.dominio.getD sentinelDominio
           temperatura := redondear (calcular_mediana buffer Campo.temperatura)
           ph := redondear (calcular_mediana buffer Campo.ph)
           turbidez := redondear (calcular_mediana buffer Campo.turbidez)
           oxigeno := redondear (calcular_mediana buffer Campo.oxigeno)
           luz := redondear (calcular_mediana buffer Campo.luz) }

/-! ## Buffer store, ingest, dispatch, flush, scheduler -/

/-- The `defaultdict(list)` `buffers_por_dispositivo`: an insertion-ordered
association list from the Python key value of `id_dispositivo` to that
device's buffer.  Key matching uses Python equality (`pyEq`). -/
abbrev Store : Type := List (JVal × List RawRecord)

/-- Dictionary lookup: the value stored under a key Python-equal to `k`,
`none` when the key is absent. -/
def storeLookup (st : Store) (k : JVal) : Option (List RawRecord) :=
  match st with
  | [] => none
  | e :: rest => if pyEq e.1 k then some e.2 else storeLookup rest k

/-- `buffers_por_dispositivo[id_disp].append(data)` on a `defaultdict(list)`:
append to the existing entry's list when the key is present, otherwise
create the entry with a singleton list (at the end, preserving insertion
order). -/
def storeAppend (st : Store) (k : JVal) (r : RawRecord) : Store :=
  match st with
  | [] => [(k, [r])]
  | e :: rest =>
    if pyEq e.1 k then (e.1, e.2 ++ [r]) :: rest
    else e :: storeAppend rest k r

/-- The inbound message as `listener_callback` sees it after `json.loads`:
either the text is not valid JSON (`JSONDecodeError`), or it parses to a
non-object value (on which `.get` raises `AttributeError`, caught by the
generic handler), or it parses to an object, modelled by its relevant
keys. -/
inductive Payload where
  | malformed
  | nonObject
  | record (r : RawRecord)

/-- The `id_dispositivo` under which a payload is ingested: `some v` when
the payload parses to an object whose `id_dispositivo` value is truthy and
hashable, `none` otherwise (parse failure, non-object, missing key,
`null`, empty string, zero, `False`, or an unhashable id on which the
dictionary access raises and the generic handler fires). -/
def validKey : Payload → Option JVal
  | Payload.malformed => none
  | Payload.nonObject => none
  | Payload.record r =>
    match r.id_dispositivo with
    | none => none
    | some v => if truthy v && hashable v then some v else none

/-- The record carried by a payload (junk for non-records; only read under
`validKey = some _`). -/
def payloadRecord : Payload → RawRecord
  | Payload.record r => r
  | _ => {}

/-- `listener_callback` restricted to its effect on the buffer store: a
malformed or non-object message is logged and discarded, an object without
a truthy `id_dispositivo` is logged and discarded, an unhashable id makes
the dictionary access raise `TypeError` (caught by the generic handler,
store unchanged), and otherwise the record is appended to its device's
buffer.  Every branch is covered by a handler, so the callback never
raises. -/
def listener_callback (st : Store) (p : Payload) : Store :=
  match p with
  | Payload.malformed => st
  | Payload.nonObject => st
  | Payload.record r =>
    match r.id_dispositivo with
    | none => st
    | some v => if truthy v && hashable v then storeAppend st v r else st

/-- The sink's reaction to one `requests.post` call: an HTTP response with
a status code, or a transport-level failure (`requests.RequestException`,
covering timeout and connection errors). -/
inductive SinkResponse where
  | status (code : ℕ)
  | transportError
deriving DecidableEq, Repr

/-- The outcome of one dispatch attempt. -/
inductive DispatchOutcome where
  | delivered
  | rejected (code : ℕ)
  | unreachable
deriving DecidableEq, Repr

/-- The dispatch block of `publicar_datos`: `requests.post` inside
`try/except requests.RequestException`; status 201 is logged as success,
any other status is logged as an error with its code, a transport failure
is logged; in every case control continues (the summary is not retried
and nothing propagates). -/
def dispatch (_datos : DatosFiltrados) (resp : SinkResponse) : DispatchOutcome :=
  match resp with
  | SinkResponse.status code =>
    if code = 201 then DispatchOutcome.delivered else DispatchOutcome.rejected code
  | SinkResponse.transportError => DispatchOutcome.unreachable

/-- One iteration of the publish loop for a single store entry: skip an
empty buffer (`if not buffer: continue`), otherwise build the summary and
dispatch it once against that device's sink response. -/
def flushEntry (resp : JVal → SinkResponse) (e : JVal × List RawRecord) :
    Option (JVal × DispatchOutcome) :=
  if e.2.isEmpty then none
  else (reduceBuffer e.1 e.2).map (fun s => (e.1, dispatch s (resp e.1)))

/-- One flush cycle: the `for id_disp, buffer in ...items()` loop body of
`publicar_datos`.  Empty buffers are skipped (`if not buffer: continue`);
for each non-empty buffer the summary is built, dispatched once against
that device's sink response, and the buffer is replaced by `[]`.  Returns
the store after the loop and the list of (device, outcome) pairs of the
dispatch attempts made. -/
def flushCycle (st : Store) (resp : JVal → SinkResponse) :
    Store × List (JVal × DispatchOutcome) :=
  (st.map (fun e => (e.1, if e.2.isEmpty then e.2 else [])),
   st.filterMap (flushEntry resp))

/-- `publicar_datos`, with the wall-clock minute and the per-device sink
responses passed explicitly: the flush runs only when
`minuto in [0, 30]`; on any other minute nothing is dispatched and the
store is untouched. -/
def publicar_datos (minuto : ℕ) (st : Store) (resp : JVal → SinkResponse) :
    Store × List (JVal × DispatchOutcome) :=
  if minuto ∈ [0, 30] then flushCycle st resp else (st, [])

/-! ## Spec-level definitions (from the specification's words, for
refinement comparisons) -/

/-- Modelled from the spec: the statistical median, "standard definition:
middle element of the sorted sequence; average of the two middle elements
when the count is even" (meaningful on non-empty input). -/
def specMedian (vs : List ℚ) : ℚ :=
  let s := sortQ vs
  let n := s.length
  if n % 2 = 1 then s.getD (n / 2) 0
  else (s.getD (n / 2 - 1) 0 + s.getD (n / 2) 0) / 2

/-- Modelled from the spec: the per-field output of the reducer — "Collect
all values for that field across the buffer's records where the value is
present and of numeric type"; absent when that collection is empty,
otherwise the statistical median rounded to 2 decimal places. -/
def specFieldOutput (buffer : List RawRecord) (campo : Campo) : Option ℚ :=
  match valoresCampo buffer campo with
  | [] => none
  | v :: rest => some (round2 (specMedian (v :: rest)))

/-- Modelled from the spec: the domain "taken from the last record in
buffer order that carries a domain tag; sentinel if none do". -/
def specDomain (buffer : List RawRecord) : JVal :=
  match (buffer.reverse.filterMap (fun r => r.dominio)).head? with
  | some v => v
  | none => sentinelDominio

/-! ## Helper lemmas -/

theorem pyEq_eq_true_iff {a b : JVal} :
    pyEq a b = true ↔ ∃ x, keyRep a = some x ∧ keyRep b = some x := by
  unfold pyEq
  cases keyRep a <;> cases keyRep b <;> simp [eq_comm]

theorem pyEq_symm (a b : JVal) : pyEq a b = pyEq b a := by
  unfold pyEq
  cases keyRep a <;> cases keyRep b <;> simp [eq_comm]

theorem pyEq_trans {a b c : JVal} (h1 : pyEq a b = true) (h2 : pyEq b c = true) :
    pyEq a c = true := by
  obtain ⟨x, hax, hbx⟩ := pyEq_eq_true_iff.mp h1
  obtain ⟨y, hby, hcy⟩ := pyEq_eq_true_iff.mp h2
  rw [hbx] at hby
  injection hby with hxy
  exact pyEq_eq_true_iff.mpr ⟨x, hax, by rw [hcy, hxy]⟩

theorem pyEq_refl_of_hashable {v : JVal} (h : hashable v = true) : pyEq v v = true := by
  cases v <;> simp [pyEq, keyRep, hashable] at h ⊢

/-- Appending a record under key `v` leaves lookups of Python-distinct keys
untouched. -/
theorem storeLookup_storeAppend_ne (st : Store) (v k : JVal) (r : RawRecord)
    (hk : pyEq k v = false) :
    storeLookup (storeAppend st v r) k = storeLookup st k := by
  induction st with
  | nil =>
    have : pyEq v k = false := by rw [pyEq_symm]; exact hk
    simp [storeAppend, storeLookup, this]
  | cons e rest ih =>
    by_cases hev : pyEq e.1 v = true
    · have hek : pyEq e.1 k = false := by
        by_contra hcon
        have hek' : pyEq e.1 k = true := by
          cases hcek : pyEq e.1 k
          · exact absurd hcek hcon
          · rfl
        have : pyEq k v = true :=
          pyEq_trans (by rw [pyEq_symm]; exact hek') hev
        rw [this] at hk
        exact Bool.noConfusion hk
      simp [storeAppend, hev, storeLookup, hek]
    · have hev' : pyEq e.1 v = false := by
        cases hc : pyEq e.1 v
        · rfl
        · exact absurd hc hev
      by_cases hek : pyEq e.1 k = true
      · simp [storeAppend, hev', storeLookup, hek]
      · have hek' : pyEq e.1 k = false := by
          cases hc : pyEq e.1 k
          · rfl
          · exact absurd hc hek
        simp [storeAppend, hev', storeLookup, hek', ih]

/-- Appending a record under a hashable key `v`: the looked-up buffer for
`v` is the previous buffer (empty when the key was absent) extended by the
record. -/
theorem storeLookup_storeAppend_eq (st : Store) (v : JVal) (r : RawRecord)
    (hv : hashable v = true) :
    storeLookup (storeAppend st v r) v = some ((storeLookup st v).getD [] ++ [r]) := by
  induction st with
  | nil => simp [storeAppend, storeLookup, pyEq_refl_of_hashable hv]
  | cons e rest ih =>
    by_cases hev : pyEq e.1 v = true
    · simp [storeAppend, hev, storeLookup]
    · have hev' : pyEq e.1 v = false := by
        cases hc : pyEq e.1 v
        · rfl
        · exact absurd hc hev
      simp [storeAppend, hev', storeLookup, ih]

/-- Sorting is idempotent. -/
theorem sortQ_idem (xs : List ℚ) : sortQ (sortQ xs) = sortQ xs :=
  List.Sorted.insertionSort_eq (List.sorted_insertionSort _ xs)

theorem sortQ_length (xs : List ℚ) : (sortQ xs).length = xs.length :=
  List.length_insertionSort _ xs

/-- The code's per-field pipeline `redondear(calcular_mediana(buffer, campo))`
computes exactly the spec's per-field output. -/
theorem redondear_calcular_mediana_eq_spec (buffer : List RawRecord) (campo : Campo) :
    redondear (calcular_mediana buffer campo) = specFieldOutput buffer campo := by
  unfold calcular_mediana specFieldOutput
  cases hvs : valoresCampo buffer campo with
  | nil => simp [redondear]
  | cons v rest =>
    have hne : ¬ ((v :: rest : List ℚ).isEmpty = true) := by simp
    simp only [hvs, hne, if_neg]
    unfold statisticsMedian specMedian
    rw [sortQ_idem]
    have hlen : (sortQ (v :: rest)).length = rest.length + 1 := by
      rw [sortQ_length]; rfl
    have hzero : ¬ ((sortQ (v :: rest)).length = 0) := by
      rw [hlen]; exact Nat.succ_ne_zero _
    by_cases hodd : (sortQ (v :: rest)).length % 2 = 1
    · simp [hzero, hodd, redondear]
    · simp [hzero, hodd, redondear]

/-! ## Claim theorems -/

/-- C1: for every non-empty buffer and each of the five numeric fields,
the reducer's output for that field equals the statistical median (middle
element of the sorted values; average of the two middle elements when the
count is even) of exactly the values present and of numeric type for that
field across the buffer's records, rounded to 2 decimal places; the field
is absent in the output when no such value exists in the buffer. -/
theorem c1_reducer_field_is_spec_median (id_disp : JVal) (buffer : List RawRecord)
    (s : DatosFiltrados) (campo : Campo) (h : reduceBuffer id_disp buffer = some s) :
    summaryField s campo = specFieldOutput buffer campo := by
  unfold reduceBuffer at h
  cases hl : buffer.getLast? with
  | none => rw [hl] at h; exact Option.noConfusion h
  | some ultimo =>
    rw [hl] at h
    injection h with hs
    subst hs
    cases campo <;> exact redondear_calcular_mediana_eq_spec _ _

/-- Witness for C1 at a concrete one-record buffer. -/
theorem c1_witness :
    ∃ s, reduceBuffer (JVal.jstr "D1") [{ ph := some (JVal.jnum 7) }] = some s ∧
      summaryField s Campo.ph = specFieldOutput [{ ph := some (JVal.jnum 7) }] Campo.ph :=
  ⟨_, rfl, c1_reducer_field_is_spec_median _ _ _ _ rfl⟩

/-- C2 counterexample: in the buffer `[{dominio: "lab1"}, {}]` the last
record carrying a domain tag carries `"lab1"`, yet the summary's domain is
the sentinel `"desconocido"` (the code reads the domain of the last record
only), refuting the claim at this input. -/
theorem c2_counterexample :
    (reduceBuffer (JVal.jstr "D1")
        [{ dominio := some (JVal.jstr "lab1") }, {}]).map DatosFiltrados.dominio =
      some sentinelDominio ∧
    specDomain [{ dominio := some (JVal.jstr "lab1") }, ({} : RawRecord)] =
      JVal.jstr "lab1" ∧
    sentinelDominio ≠ JVal.jstr "lab1" :=
  ⟨rfl, rfl, by decide⟩

/-- C2 (amended): for every non-empty buffer, the domain field of the
summary equals the domain tag of the *last record in buffer order* when
that record carries one, and the sentinel otherwise — domain tags of
earlier records are ignored. -/
theorem c2_domain_is_last_record_tag (id_disp : JVal) (buffer : List RawRecord)
    (ultimo : RawRecord) (h : buffer.getLast? = some ultimo) :
    (reduceBuffer id_disp buffer).map DatosFiltrados.dominio =
      some (ultimo.dominio.getD sentinelDominio) := by
  unfold reduceBuffer
  rw [h]
  rfl

/-- Witness for C2 (amended) at a concrete one-record buffer. -/
theorem c2_witness :
    (reduceBuffer (JVal.jstr "D1") [{ dominio := some (JVal.jstr "lab1") }]).map
        DatosFiltrados.dominio = some (JVal.jstr "lab1") := by
  have h := c2_domain_is_last_record_tag (JVal.jstr "D1")
    [{ dominio := some (JVal.jstr "lab1") }] { dominio := some (JVal.jstr "lab1") } rfl
  simpa using h

/-- C3 counterexample: applied directly to an empty buffer the reducer
does not return a summary at all — `buffer[-1]` fails — contradicting the
claim that every field is absent and the domain is the sentinel. -/
theorem c3_counterexample : reduceBuffer (JVal.jstr "D1") [] = none := rfl

/-- C3 (amended): the reduction produces a summary exactly on non-empty
buffers; applied directly to an empty buffer it fails (the domain access
`buffer[-1]` raises) instead of returning a summary with absent fields.
Within `publicar_datos` empty buffers are skipped, so the reducer is only
invoked on non-empty buffers. -/
theorem c3_reduce_some_iff_nonempty (id_disp : JVal) (buffer : List RawRecord) :
    (reduceBuffer id_disp buffer).isSome = true ↔ buffer ≠ [] := by
  unfold reduceBuffer
  cases hl : buffer.getLast? with
  | none =>
    simp only [Option.isSome_none, Bool.false_eq_true, false_iff, ne_eq, not_not]
    exact List.getLast?_eq_none_iff.mp hl
  | some ultimo =>
    simp only [Option.isSome_some, true_iff, ne_eq]
    intro hnil
    rw [hnil] at hl
    exact Option.noConfusion hl

/-- Looking up a key in the post-flush store yields the pre-flush buffer
with non-empty buffers replaced by `[]`. -/
theorem storeLookup_flushCycle_fst (st : Store) (resp : JVal → SinkResponse)
    (k : JVal) :
    storeLookup (flushCycle st resp).1 k =
      (storeLookup st k).map (fun b => if b.isEmpty then b else []) := by
  induction st with
  | nil => rfl
  | cons e rest ih =>
    by_cases he : pyEq e.1 k = true
    · simp [flushCycle, storeLookup, he]
    · have he' : pyEq e.1 k = false := by
        cases hc : pyEq e.1 k
        · rfl
        · exact absurd hc he
      simpa [flushCycle, storeLookup, he'] using ih

/-- The reduction succeeds on every non-empty buffer. -/
theorem reduceBuffer_isSome_of_ne_nil (id_disp : JVal) (b : List RawRecord)
    (h : b ≠ []) : ∃ s, reduceBuffer id_disp b = some s := by
  unfold reduceBuffer
  cases hl : b.getLast? with
  | none => exact absurd (List.getLast?_eq_none_iff.mp hl) h
  | some u => exact ⟨_, rfl⟩

/-- C4: after a flush cycle, every device buffer present in the store
before the cycle is the empty sequence — for every assignment of sink
responses (hence every dispatch outcome per device) — and every device
with a non-empty buffer gets its summary dispatched in that same cycle,
independently of the other devices' outcomes. -/
theorem c4_flush_clears_all_buffers (st : Store) (resp : JVal → SinkResponse) :
    (∀ k, (storeLookup st k).isSome = true →
        storeLookup (flushCycle st resp).1 k = some []) ∧
    (∀ k b s, (k, b) ∈ st → reduceBuffer k b = some s →
        (k, dispatch s (resp k)) ∈ (flushCycle st resp).2) := by
  constructor
  · intro k hk
    have hmap := storeLookup_flushCycle_fst st resp k
    cases hsk : storeLookup st k with
    | none => rw [hsk] at hk; simp at hk
    | some b =>
      rw [hmap, hsk]
      cases b <;> simp
  · intro k b s hmem hred
    have hne : b.isEmpty = false := by
      cases b
      · exact absurd hred (by simp [reduceBuffer])
      · rfl
    show (k, dispatch s (resp k)) ∈ st.filterMap (flushEntry resp)
    refine List.mem_filterMap.mpr ⟨(k, b), hmem, ?_⟩
    simp [flushEntry, hne, hred]

/-- Witness for C4: one device, non-empty buffer, sink answering 500 —
the buffer is cleared and the rejected dispatch attempt happens. -/
theorem c4_witness :
    storeLookup (flushCycle [(JVal.jstr "D1", [{}])]
        (fun _ => SinkResponse.status 500)).1 (JVal.jstr "D1") = some [] ∧
    (JVal.jstr "D1", DispatchOutcome.rejected 500) ∈
      (flushCycle [(JVal.jstr "D1", [{}])] (fun _ => SinkResponse.status 500)).2 := by
  have h := c4_flush_clears_all_buffers [(JVal.jstr "D1", [{}])]
    (fun _ => SinkResponse.status 500)
  refine ⟨h.1 (JVal.jstr "D1") (by decide), ?_⟩
  exact h.2 (JVal.jstr "D1") [{}]
    ⟨JVal.jstr "D1", sentinelDominio, none, none, none, none, none⟩
    (by simp) rfl

/-- C6: a scheduler tick flushes exactly when the wall-clock minute is 0
or 30; on any other minute the store is untouched and nothing is
dispatched. -/
theorem c6_scheduler_gate (minuto : ℕ) (st : Store) (resp : JVal → SinkResponse) :
    (minuto = 0 ∨ minuto = 30 → publicar_datos minuto st resp = flushCycle st resp) ∧
    (minuto ≠ 0 → minuto ≠ 30 → publicar_datos minuto st resp = (st, [])) := by
  constructor
  · intro h
    have hmem : minuto ∈ [0, 30] := by
      rcases h with h | h <;> simp [h]
    simp [publicar_datos, hmem]
  · intro h0 h30
    have hmem : minuto ∉ [0, 30] := by simp [h0, h30]
    simp [publicar_datos, hmem]

/-- Witness for C6: minute 15 is a no-op, minute 30 flushes. -/
theorem c6_witness :
    publicar_datos 15 [(JVal.jstr "D1", [({} : RawRecord)])]
        (fun _ => SinkResponse.status 201) =
      ([(JVal.jstr "D1", [({} : RawRecord)])], []) ∧
    publicar_datos 30 [(JVal.jstr "D1", [({} : RawRecord)])]
        (fun _ => SinkResponse.status 201) =
      flushCycle [(JVal.jstr "D1", [({} : RawRecord)])]
        (fun _ => SinkResponse.status 201) := by
  have h15 := (c6_scheduler_gate 15 [(JVal.jstr "D1", [({} : RawRecord)])]
    (fun _ => SinkResponse.status 201)).2 (by decide) (by decide)
  have h30 := (c6_scheduler_gate 30 [(JVal.jstr "D1", [({} : RawRecord)])]
    (fun _ => SinkResponse.status 201)).1 (Or.inr rfl)
  exact ⟨h15, h30⟩

/-- C7: the outcome of a dispatch is `delivered` exactly on HTTP status
201; any other status yields `rejected` with that code; a transport
failure yields `unreachable`; and each non-empty buffer gets exactly one
dispatch attempt per cycle (the summary is dropped, never retried), with
the total dispatch outcome being a plain value — no exception reaches the
scheduler. -/
theorem c7_dispatch_outcomes (s : DatosFiltrados) (resp : SinkResponse) :
    (dispatch s resp = DispatchOutcome.delivered ↔ resp = SinkResponse.status 201) ∧
    (∀ c, resp = SinkResponse.status c → c ≠ 201 →
        dispatch s resp = DispatchOutcome.rejected c) ∧
    (resp = SinkResponse.transportError →
        dispatch s resp = DispatchOutcome.unreachable) ∧
    (∀ (st : Store) (r : JVal → SinkResponse),
        (flushCycle st r).2.length =
          (st.filter (fun e => !e.2.isEmpty)).length) := by
  refine ⟨?_, ?_, ?_, ?_⟩
  · constructor
    · intro h
      cases resp with
      | status c =>
        by_cases hc : c = 201
        · rw [hc]
        · simp [dispatch, hc] at h
      | transportError => simp [dispatch] at h
    · intro h
      rw [h]
      simp [dispatch]
  · intro c hc hne
    rw [hc]
    simp [dispatch, hne]
  · intro h
    rw [h]
    rfl
  · intro st r
    induction st with
    | nil => rfl
    | cons e rest ih =>
      have ih' : (List.filterMap (flushEntry r) rest).length =
          (rest.filter (fun x => !x.2.isEmpty)).length := ih
      show (List.filterMap (flushEntry r) (e :: rest)).length =
          ((e :: rest).filter (fun x => !x.2.isEmpty)).length
      cases hb : e.2 with
      | nil => simp [List.filterMap_cons, List.filter_cons, flushEntry, hb, ih']
      | cons h0 t0 =>
        obtain ⟨s0, hs0⟩ := reduceBuffer_isSome_of_ne_nil
          e.1 (h0 :: t0) (List.cons_ne_nil h0 t0)
        simp [List.filterMap_cons, List.filter_cons, flushEntry, hb, hs0, ih']

/-- Witness for C7 at concrete responses: status 500 is rejected, a
timeout is unreachable, status 201 is delivered. -/
theorem c7_witness :
    dispatch ⟨JVal.jstr "D1", sentinelDominio, none, none, none, none, none⟩
        (SinkResponse.status 500) = DispatchOutcome.rejected 500 ∧
    dispatch ⟨JVal.jstr "D1", sentinelDominio, none, none, none, none, none⟩
        SinkResponse.transportError = DispatchOutcome.unreachable ∧
    dispatch ⟨JVal.jstr "D1", sentinelDominio, none, none, none, none, none⟩
        (SinkResponse.status 201) = DispatchOutcome.delivered := by
  have h500 := c7_dispatch_outcomes
    ⟨JVal.jstr "D1", sentinelDominio, none, none, none, none, none⟩
    (SinkResponse.status 500)
  have h201 := c7_dispatch_outcomes
    ⟨JVal.jstr "D1", sentinelDominio, none, none, none, none, none⟩
    (SinkResponse.status 201)
  have hte := c7_dispatch_outcomes
    ⟨JVal.jstr "D1", sentinelDominio, none, none, none, none, none⟩
    SinkResponse.transportError
  exact ⟨h500.2.1 500 rfl (by decide), hte.2.2.1 rfl, h201.1.mpr rfl⟩

/-- C5: the ingest callback never raises; an invalid payload (parse
failure, non-object, or no usable `id_dispositivo`) leaves the buffer
store completely unchanged, and a valid payload appends exactly one record
to the buffer keyed by its device id (created if absent) while every other
buffer stays as it was. -/
theorem c5_ingest_valid_append_invalid_noop (st : Store) (p : Payload) :
    (validKey p = none → listener_callback st p = st) ∧
    (∀ v, validKey p = some v →
      storeLookup (listener_callback st p) v =
        some ((storeLookup st v).getD [] ++ [payloadRecord p]) ∧
      ∀ k, pyEq k v = false →
        storeLookup (listener_callback st p) k = storeLookup st k) := by
  cases p with
  | malformed => exact ⟨fun _ => rfl, fun v hv => Option.noConfusion hv⟩
  | nonObject => exact ⟨fun _ => rfl, fun v hv => Option.noConfusion hv⟩
  | record r =>
    cases hid : r.id_dispositivo with
    | none =>
      constructor
      · intro _
        simp [listener_callback, hid]
      · intro v hv
        simp [validKey, hid] at hv
    | some v0 =>
      cases htv : truthy v0 && hashable v0 with
      | false =>
        constructor
        · intro _
          simp [listener_callback, hid, htv]
        · intro v hv
          simp [validKey, hid, htv] at hv
      | true =>
        constructor
        · intro hv
          simp [validKey, hid, htv] at hv
        · intro v hv
          have hvv : v = v0 := by
            simp [validKey, hid, htv] at hv
            exact hv.symm
          subst hvv
          have hh : hashable v = true := (Bool.and_eq_true _ _).mp htv |>.2
          have hcb : listener_callback st (Payload.record r) = storeAppend st v r := by
            simp [listener_callback, hid, htv]
          rw [hcb]
          exact ⟨storeLookup_storeAppend_eq st v r hh,
            fun k hk => storeLookup_storeAppend_ne st v k r hk⟩

/-- Witness for C5: a malformed payload leaves an empty store empty; a
valid record creates the buffer for its device and appends the record. -/
theorem c5_witness :
    listener_callback [] Payload.malformed = [] ∧
    storeLookup
        (listener_callback []
          (Payload.record { id_dispositivo := some (JVal.jstr "D1") }))
        (JVal.jstr "D1") =
      some [{ id_dispositivo := some (JVal.jstr "D1") }] := by
  have h1 := (c5_ingest_valid_append_invalid_noop [] Payload.malformed).1 rfl
  have h2 := ((c5_ingest_valid_append_invalid_noop []
    (Payload.record { id_dispositivo := some (JVal.jstr "D1") })).2
    (JVal.jstr "D1") (by decide)).1
  exact ⟨h1, by simpa using h2⟩

/-- C8 (frame property): ingesting a valid record for device `A` leaves
the buffer of every device `B` that is Python-distinct from `A` exactly as
it was. -/
theorem c8_ingest_frame (st : Store) (r : RawRecord) (A B : JVal)
    (hid : r.id_dispositivo = some A) (htr : truthy A = true)
    (hBA : pyEq B A = false) :
    storeLookup (listener_callback st (Payload.record r)) B = storeLookup st B := by
  cases hh : hashable A with
  | true =>
    have hcb : listener_callback st (Payload.record r) = storeAppend st A r := by
      simp [listener_callback, hid, htr, hh]
    rw [hcb]
    exact storeLookup_storeAppend_ne st A B r hBA
  | false =>
    simp [listener_callback, hid, htr, hh]

/-- Witness for C8 at concrete devices "A" and "B". -/
theorem c8_witness :
    storeLookup
        (listener_callback [(JVal.jstr "B", [])]
          (Payload.record { id_dispositivo := some (JVal.jstr "A") }))
        (JVal.jstr "B") =
      storeLookup [(JVal.jstr "B", [])] (JVal.jstr "B") :=
  c8_ingest_frame [(JVal.jstr "B", [])] { id_dispositivo := some (JVal.jstr "A") }
    (JVal.jstr "A") (JVal.jstr "B") rfl (by decide) (by decide)

/-- C9: a payload whose `id_dispositivo` is present but equal to the empty
string is treated exactly like a payload with the key missing — the
truthiness test `if id_disp:` rejects both, the record is discarded and no
buffer is created or appended to. -/
theorem c9_empty_string_id_discarded (st : Store) (r : RawRecord)
    (hid : r.id_dispositivo = some (JVal.jstr "")) :
    listener_callback st (Payload.record r) = st ∧
    listener_callback st (Payload.record { r with id_dispositivo := none }) = st := by
  constructor
  · simp [listener_callback, hid, truthy]
  · simp [listener_callback]

/-- Witness for C9 at a concrete record with empty-string device id. -/
theorem c9_witness :
    listener_callback [] (Payload.record { id_dispositivo := some (JVal.jstr "") }) =
      ([] : Store) ∧
    listener_callback []
        (Payload.record { ({ id_dispositivo := some (JVal.jstr "") } : RawRecord) with
          id_dispositivo := none }) = ([] : Store) :=
  c9_empty_string_id_discarded [] { id_dispositivo := some (JVal.jstr "") } rfl

/-- C10: a boolean field value passes the `isinstance(v, (int, float))`
test (bool being a subtype of int) and enters the median computation as
1/0: appending a record whose field is a boolean extends the collected
value list by that 0-or-1, and the median of a single such record is that
0-or-1 — the boolean is not treated as an absent non-numeric value. -/
theorem c10_bool_counted_as_numeric (buffer : List RawRecord) (r : RawRecord)
    (b : Bool) (campo : Campo) (h : getField r campo = some (JVal.jbool b)) :
    valoresCampo (buffer ++ [r]) campo =
      valoresCampo buffer campo ++ [if b then (1 : ℚ) else 0] ∧
    calcular_mediana [r] campo = some (if b then (1 : ℚ) else 0) := by
  have hone : valoresCampo [r] campo = [if b then (1 : ℚ) else 0] := by
    simp [valoresCampo, h, isNumericPy, toNum]
  constructor
  · unfold valoresCampo
    rw [List.filterMap_append]
    have : List.filterMap (fun d =>
        match getField d campo with
        | some v => if isNumericPy v then some (toNum v) else none
        | none => none) [r] = [if b then (1 : ℚ) else 0] := hone
    rw [this]
  · simp [calcular_mediana, hone, statisticsMedian, sortQ, List.insertionSort,
      List.orderedInsert, List.getD]

/-- Witness for C10: a record whose oxygen field is `True` contributes the
numeric value 1, and the one-record median is 1. -/
theorem c10_witness :
    valoresCampo ([] ++ [{ oxigeno := some (JVal.jbool true) }]) Campo.oxigeno =
      valoresCampo [] Campo.oxigeno ++ [(1 : ℚ)] ∧
    calcular_mediana [{ oxigeno := some (JVal.jbool true) }] Campo.oxigeno =
      some 1 := by
  have h := c10_bool_counted_as_numeric [] { oxigeno := some (JVal.jbool true) }
    true Campo.oxigeno rfl
  simpa using h

/-! ## Concrete scenario checks from the specification -/

example : redondear (calcular_mediana
    [{ temperatura := some (JVal.jnum (201/10)) },
     { temperatura := some (JVal.jnum (223/10)) },
     { temperatura := some (JVal.jnum 21) }] Campo.temperatura) = some 21 := by
  norm_num [calcular_mediana, valoresCampo, getField, isNumericPy, toNum, sortQ,
    List.insertionSort, List.orderedInsert, statisticsMedian, redondear, round2,
    roundHalfEven, List.filterMap]

example : redondear (calcular_mediana
    [{ ph := some (JVal.jnum (742/100)) }] Campo.ph) = some (742/100) := by
  norm_num [calcular_mediana, valoresCampo, getField, isNumericPy, toNum, sortQ,
    List.insertionSort, List.orderedInsert, statisticsMedian, redondear, round2,
    roundHalfEven, List.filterMap]
